import Mathlib

/-!
Verification of the shift behavioral-intervention pipeline.

This file gives a shallow embedding, in Lean 4, of the core logic of the
repository (ingestion gateway, intervention selector, context aggregator)
and proves or refutes the frozen specification claims about it.

Conventions of the embedding:
- timestamps are naturals (milliseconds UTC);
- the numeric health scores (stress, preference_score, annoyance_rate, ...)
  are rationals, built through mkQ so that concrete values evaluate in the
  kernel; qadd is a kernel-computable addition on rationals, proved equal
  to the ordinary addition in lemma qadd_eq_add;
- uuid4 is modelled by a deterministic supply of fresh identifiers
  (freshId n, with a counter threaded through the state);
- SQL rows are Lean structures, tables are lists of rows, and each query of
  the source is translated to a list computation over those rows;
- a warehouse UPDATE is a List.map that rewrites the matching rows;
- dynamic JSON payloads of app-interaction events are flattened into the
  optional fields flow_id, flow_version, scope and intervention_key.
-/

namespace Shift

/-- Kernel-computable rational literal: mkQ n d is the rational n / d. -/
def mkQ (n : Int) (d : Nat) : ℚ := Rat.divInt n d

/-- Kernel-computable addition on rationals (Rat.add is irreducible, so the
embedding uses this cross-multiplication form; qadd_eq_add bridges it to the
ordinary addition). -/
def qadd (a b : ℚ) : ℚ := Rat.divInt (a.num * b.den + b.num * a.den) (a.den * b.den)

/-- Kernel-computable minimum of two rationals. -/
def qmin (a b : ℚ) : ℚ := if a ≤ b then a else b

/-- Lexicographic strict comparison of character lists (by code point),
used to model the comparison of Python / SQL strings. -/
def charListLt : List Char → List Char → Bool
  | [], [] => false
  | [], _ :: _ => true
  | _ :: _, [] => false
  | a :: as, b :: bs =>
    if a.toNat < b.toNat then true
    else if b.toNat < a.toNat then false
    else charListLt as bs

/-- Strict lexicographic order on strings (model of Python string <). -/
def strLt (a b : String) : Bool := charListLt a.toList b.toList

/-- Model of Python str.startswith. -/
def strStartsWith (s p : String) : Bool := p.toList.isPrefixOf s.toList

/-- Model of Python str.split on the underscore character. -/
def splitUnderscore : List Char → List (List Char)
  | [] => [[]]
  | c :: cs =>
    let r := splitUnderscore cs
    if c == '_' then [] :: r
    else
      match r with
      | [] => [[c]]
      | h :: t => (c :: h) :: t

/-- The parts of a string split on the underscore character. -/
def strParts (s : String) : List String := (splitUnderscore s.toList).map String.mk

/-- Deterministic model of uuid4: the n-th fresh identifier. -/
def freshId (n : Nat) : String := "uuid-" ++ toString n

/-! ## Intervention selector: bucketing (src/bucketing.py) -/

/-- Bucketing threshold for the high stress level. -/
def STRESS_HIGH_THRESHOLD : ℚ := mkQ 7 10

/-- Bucketing threshold for the medium stress level. -/
def STRESS_MEDIUM_THRESHOLD : ℚ := mkQ 3 10

/-- bucket_stress from src/bucketing.py: maps an optional stress score to
high / medium / low, and None to None. -/
def bucket_stress : Option ℚ → Option String
  | none => none
  | some stress =>
    if stress > STRESS_HIGH_THRESHOLD then some "high"
    else if stress ≥ STRESS_MEDIUM_THRESHOLD then some "medium"
    else some "low"

/-! ## Intervention selector: catalog and preferences -/

/-- A row of the intervention_catalog table. -/
structure CatalogRow where
  intervention_key : String
  metric : String
  level : String
  target_level : Option String := none
  nudge_type : Option String := none
  persona : Option String := none
  surface : String
  title : String
  body : String
  enabled : Bool
deriving Repr, DecidableEq

/-- A row of the surface_preferences view for one (user, surface), with the
None-to-default coalescing already applied by get_surface_preferences. -/
structure SurfacePref where
  preference_score : ℚ
  annoyance_rate : ℚ
  ignore_rate : ℚ := mkQ 0 1
  shown_count : Nat
  engagement_rate : ℚ := mkQ 0 1
deriving Repr, DecidableEq

/-- A row of the state_estimates table. -/
structure StateEstimate where
  user_id : String
  timestamp : Nat
  trace_id : Option String
  recovery : Option ℚ := none
  readiness : Option ℚ := none
  stress : Option ℚ
  fatigue : Option ℚ := none
deriving Repr, DecidableEq

/-- Stable insertion (ascending by intervention_key) used to model the
ORDER BY intervention_key of the catalog query. -/
def insertByKey (r : CatalogRow) : List CatalogRow → List CatalogRow
  | [] => [r]
  | x :: xs =>
    if strLt x.intervention_key r.intervention_key then x :: insertByKey r xs
    else r :: x :: xs

/-- Sort catalog rows ascending by intervention_key (ORDER BY intervention_key). -/
def sortCatalogByKey (l : List CatalogRow) : List CatalogRow := l.foldr insertByKey []

/-- get_catalog_interventions from src/bigquery_client.py: enabled rows of the
catalog with the given metric and level, ordered by intervention_key. -/
def get_catalog_interventions (catalog : List CatalogRow) (metric level : String) : List CatalogRow :=
  sortCatalogByKey (catalog.filter fun r => r.enabled && r.metric == metric && r.level == level)

/-- get_interventions_for_state from src/catalog.py (the query-error fallback
to the empty list is not reachable in the pure embedding). -/
def get_interventions_for_state (catalog : List CatalogRow) (metric level : String) : List CatalogRow :=
  get_catalog_interventions catalog metric level

/-- get_catalog_intervention_by_key from src/bigquery_client.py: first catalog
row with the given key (LIMIT 1). -/
def get_catalog_intervention_by_key (catalog : List CatalogRow) (k : String) : Option CatalogRow :=
  (catalog.filter fun r => r.intervention_key == k).head?

/-- The surface-preferences dictionary returned by get_surface_preferences,
keyed by surface. -/
def findPref (prefs : List (String × SurfacePref)) (surface : String) : Option SurfacePref :=
  (prefs.find? fun p => p.1 == surface).map (·.2)

/-! ## Intervention selector: scoring (src/selector.py) -/

/-- The preference_score of a surface, defaulting to 0 when the user has no
preference row for it (surface_pref.get with default 0.0). -/
def prefScore (prefs : List (String × SurfacePref)) (surface : String) : ℚ :=
  ((findPref prefs surface).map (·.preference_score)).getD (mkQ 0 1)

/-- The annoyance_rate of a surface, defaulting to 0. -/
def annoyanceRate (prefs : List (String × SurfacePref)) (surface : String) : ℚ :=
  ((findPref prefs surface).map (·.annoyance_rate)).getD (mkQ 0 1)

/-- The shown_count of a surface, defaulting to 0. -/
def shownCount (prefs : List (String × SurfacePref)) (surface : String) : Nat :=
  ((findPref prefs surface).map (·.shown_count)).getD 0

/-- The suppression rule of select_intervention: shown_count at least 5 and
the annoyance rate, capped at 0.9, strictly above 0.7. -/
def isSuppressed (prefs : List (String × SurfacePref)) (surface : String) : Bool :=
  decide (5 ≤ shownCount prefs surface) &&
  decide (mkQ 7 10 < qmin (annoyanceRate prefs surface) (mkQ 9 10))

/-- A scored candidate of select_intervention. -/
structure Scored where
  candidate : CatalogRow
  final_score : ℚ
  surface : String
  preference_score : ℚ
deriving Repr, DecidableEq

/-- The score-and-filter loop of select_intervention: drop suppressed
candidates, give the rest final_score = 1.0 + preference_score. -/
def scoreAndFilter (candidates : List CatalogRow) (prefs : List (String × SurfacePref)) : List Scored :=
  candidates.filterMap fun c =>
    if isSuppressed prefs c.surface then none
    else some
      { candidate := c
        final_score := qadd (mkQ 1 1) (prefScore prefs c.surface)
        surface := c.surface
        preference_score := prefScore prefs c.surface }

/-- The sort key of select_intervention, as a strict order: a ranks strictly
before b when its final_score is higher, or equal with a smaller
intervention_key (the Python sort key (-final_score, intervention_key)). -/
def ranksBefore (a b : Scored) : Bool :=
  decide (b.final_score < a.final_score) ||
  (decide (a.final_score = b.final_score) && strLt a.candidate.intervention_key b.candidate.intervention_key)

/-- Head of the stable sort by (-final_score, intervention_key): the first
listed candidate that no other candidate ranks strictly before. -/
def pickBest : List Scored → Option Scored
  | [] => none
  | x :: xs => some (xs.foldl (fun best y => if ranksBefore y best then y else best) x)

/-- The dict returned by select_intervention. -/
structure SelectedIntervention where
  intervention_key : String
  metric : String
  level : String
  surface : String
  title : String
  body : String
  nudge_type : Option String
deriving Repr, DecidableEq

/-- select_intervention from src/selector.py. -/
def select_intervention (state_estimate : StateEstimate) (catalog : List CatalogRow)
    (prefs : List (String × SurfacePref)) : Option SelectedIntervention :=
  match state_estimate.stress with
  | none => none
  | some stress =>
    match bucket_stress (some stress) with
    | none => none
    | some level =>
      let candidates := get_interventions_for_state catalog "stress" level
      if candidates.isEmpty then none
      else
        match pickBest (scoreAndFilter candidates prefs) with
        | none => none
        | some sel => some
            { intervention_key := sel.candidate.intervention_key
              metric := sel.candidate.metric
              level := sel.candidate.level
              surface := sel.candidate.surface
              title := sel.candidate.title
              body := sel.candidate.body
              nudge_type := sel.candidate.nudge_type }



/-! ## Warehouse rows shared by the selector worker and the gateway -/

/-- A row of the intervention_instances table. -/
structure InterventionInstance where
  intervention_instance_id : String
  user_id : String
  trace_id : Option String
  metric : String
  level : String
  surface : String
  intervention_key : String
  created_at : Nat
  scheduled_at : Option Nat
  sent_at : Option Nat
  status : String
deriving Repr, DecidableEq

/-- A row of the app_interactions table; the JSON payload is flattened into
the optional flow_id / flow_version / scope / intervention_key fields. -/
structure AppInteraction where
  interaction_id : String
  trace_id : String
  user_id : String
  intervention_instance_id : Option String := none
  event_type : String
  timestamp : Nat
  flow_id : Option String := none
  flow_version : Option String := none
  scope : Option String := none
  intervention_key : Option String := none
deriving Repr, DecidableEq

/-- The row appended by create_intervention_instance in
src/bigquery_client.py: status created, created_at = scheduled_at = now,
sent_at null. -/
def mkCreatedInstance (instance_id user_id : String) (trace_id : Option String)
    (metric level surface intervention_key : String) (now : Nat) : InterventionInstance :=
  { intervention_instance_id := instance_id
    user_id := user_id
    trace_id := trace_id
    metric := metric
    level := level
    surface := surface
    intervention_key := intervention_key
    created_at := now
    scheduled_at := some now
    sent_at := none
    status := "created" }

/-- update_intervention_instance_status from src/bigquery_client.py: an
UPDATE of status (and sent_at when provided) on every row with the given
instance id, whatever its current status. -/
def update_intervention_instance_status (instances : List InterventionInstance)
    (instance_id status : String) (sent_at : Option Nat) : List InterventionInstance :=
  instances.map fun i =>
    if i.intervention_instance_id == instance_id then
      { i with
        status := status
        sent_at := match sent_at with
          | some t => some t
          | none => i.sent_at }
    else i

/-- Latest row of a list of interaction events, by timestamp; on equal
timestamps the later row of the list wins (ORDER BY timestamp DESC LIMIT 1,
with the tie broken deterministically by append order). -/
def latestEvent (events : List AppInteraction) : Option AppInteraction :=
  events.foldl
    (fun acc e =>
      match acc with
      | none => some e
      | some b => if b.timestamp ≤ e.timestamp then some e else some b)
    none

/-- has_completed_flow, identical in src/bigquery_client.py and in
context_repository.py: look at the latest flow_completed / flow_reset event
relevant to the flow and decide completion from it. -/
def has_completed_flow (events : List AppInteraction) (user_id flow_id flow_version : String) : Bool :=
  let relevant := events.filter fun e =>
    e.user_id == user_id &&
    (e.event_type == "flow_completed" || e.event_type == "flow_reset") &&
    (e.flow_id == some flow_id || e.scope == some "all" || e.scope == some "flows")
  match latestEvent relevant with
  | none => false
  | some e =>
    if e.event_type == "flow_completed" then
      e.flow_version == some flow_version || (e.flow_version == none && flow_version == "v1")
    else false

/-- get_existing_getting_started_instance from src/bigquery_client.py: some
instance id when the user already has a row with this intervention_key and
status created. -/
def get_existing_getting_started_instance (instances : List InterventionInstance)
    (user_id intervention_key : String) : Option String :=
  ((instances.filter fun i =>
      i.user_id == user_id && i.intervention_key == intervention_key && i.status == "created").map
    (·.intervention_instance_id)).head?

/-! ## Intervention selector worker (main.py process_state_estimate) -/

/-- The warehouse and environment as seen by one run of the selector worker
for one user: the latest state estimate of the user, the catalog, the
preference view, the existing instance rows, the interaction log, the device
token (including the fallback environment token), whether the push provider
succeeds, the clock and the uuid supply. -/
structure SelectorState where
  latest_estimate : Option StateEstimate
  catalog : List CatalogRow
  surface_prefs : List (String × SurfacePref)
  instances : List InterventionInstance
  interactions : List AppInteraction
  device_token : Option String
  push_succeeds : Bool
  now : Nat
  idSupply : Nat
deriving Repr, DecidableEq

/-- The create-and-push tail of process_state_estimate: mint the trace id if
the state estimate lacks one, append the instance row with status created,
then on push success update its status to sent. -/
def createAndPush (user_id : String) (est : StateEstimate) (iv : SelectedIntervention)
    (s : SelectorState) : SelectorState :=
  let supply := match est.trace_id with
    | some _ => s.idSupply
    | none => s.idSupply + 1
  let trace_id := match est.trace_id with
    | some t => t
    | none => freshId s.idSupply
  let instance_id := freshId supply
  let inst := mkCreatedInstance instance_id user_id (some trace_id)
    iv.metric iv.level iv.surface iv.intervention_key s.now
  let instances1 := s.instances ++ [inst]
  let instances2 :=
    match s.device_token with
    | some _ =>
      if s.push_succeeds then
        update_intervention_instance_status instances1 instance_id "sent" (some s.now)
      else instances1
    | none => instances1
  { s with instances := instances2, idSupply := supply + 1 }

/-- The version extracted from a getting_started intervention key by
process_state_estimate (last underscore-separated part when there are at
least three parts, v1 otherwise). -/
def gettingStartedVersion (intervention_key : String) : String :=
  let parts := strParts intervention_key
  if 3 ≤ parts.length then parts.getLastD "v1" else "v1"

/-- process_state_estimate from the selector main.py: load the latest state
estimate, select an intervention, apply the getting_started dedup gate,
append the instance row, and optionally push and mark it sent. There is no
rate-limit step: nothing in the function counts recent instances. -/
def process_state_estimate (user_id : String) (_timestamp : Nat) (s : SelectorState) : SelectorState :=
  match s.latest_estimate with
  | none => s
  | some est =>
    match select_intervention est s.catalog s.surface_prefs with
    | none => s
    | some iv =>
      if strStartsWith iv.intervention_key "getting_started_" then
        let version := gettingStartedVersion iv.intervention_key
        let completed := has_completed_flow s.interactions user_id "getting_started" version
        if !completed &&
            (get_existing_getting_started_instance s.instances user_id iv.intervention_key).isSome then
          s
        else createAndPush user_id est iv s
      else createAndPush user_id est iv s

/-- Modelled from the spec: the number of intervention rows of the user
created within the last 30 minutes. The source has no such count; this
definition only states the rate-limit claim. -/
def recentInterventionCount (instances : List InterventionInstance) (user_id : String) (now : Nat) : Nat :=
  (instances.filter fun i =>
    i.user_id == user_id && decide (now ≤ i.created_at + 1800000) && decide (i.created_at ≤ now)).length

/-! ## Gateway status updates (watch_events main.py app_interactions) -/

/-- The five statuses named by the specification. -/
def allowedStatuses : List String := ["created", "sent", "accepted", "dismissed", "failed"]

/-- The status written by the app_interactions endpoint for an event type:
accepted for tapped, dismissed for dismissed, nothing otherwise. -/
def app_interactions_status_update (event_type : String) : Option String :=
  if event_type == "tapped" then some "accepted"
  else if event_type == "dismissed" then some "dismissed"
  else none

/-- The status UPDATE performed by the app_interactions endpoint when it
stores a tapped or dismissed event: rewrite the status of every row with the
referenced instance id, whatever its current status. -/
def apply_app_interaction (instances : List InterventionInstance) (e : AppInteraction) :
    List InterventionInstance :=
  match app_interactions_status_update e.event_type, e.intervention_instance_id with
  | some st, some instance_id =>
    instances.map fun i =>
      if i.intervention_instance_id == instance_id then { i with status := st } else i
  | _, _ => instances

/-- The intervention_instances tables reachable through the writes the
pipeline performs: appends of created rows by the selector and the
aggregator, the sent update after a successful push, and the
tapped / dismissed updates of the app_interactions endpoint. -/
inductive InstancesReachable : List InterventionInstance → Prop where
  | empty : InstancesReachable []
  | create (l : List InterventionInstance) (instance_id user_id : String)
      (trace_id : Option String) (metric level surface intervention_key : String) (now : Nat) :
      InstancesReachable l →
      InstancesReachable
        (l ++ [mkCreatedInstance instance_id user_id trace_id metric level surface intervention_key now])
  | pushSent (l : List InterventionInstance) (instance_id : String) (t : Nat) :
      InstancesReachable l →
      InstancesReachable (update_intervention_instance_status l instance_id "sent" (some t))
  | interact (l : List InterventionInstance) (e : AppInteraction) :
      InstancesReachable l →
      InstancesReachable (apply_app_interaction l e)

/-! ## Ingestion gateway (services/ingestion.py) -/

/-- A HealthKit sample, kept abstract; ingestion only counts samples and stores the
payload verbatim, so the sample content is irrelevant to the embedding. -/
inductive Sample where
  | mk : Sample
deriving Repr, DecidableEq

/-- HealthDataBatch from schemas.py: the seventeen sample arrays, the
required fetchedAt and the optional trace id. -/
structure HealthDataBatch where
  heartRate : List Sample := []
  hrv : List Sample := []
  restingHeartRate : List Sample := []
  walkingHeartRateAverage : List Sample := []
  respiratoryRate : List Sample := []
  oxygenSaturation : List Sample := []
  vo2Max : List Sample := []
  steps : List Sample := []
  activeEnergy : List Sample := []
  exerciseTime : List Sample := []
  standTime : List Sample := []
  timeInDaylight : List Sample := []
  bodyMass : List Sample := []
  bodyFatPercentage : List Sample := []
  leanBodyMass : List Sample := []
  sleep : List Sample := []
  workouts : List Sample := []
  fetchedAt : Nat
  trace_id : Option String := none
deriving Repr, DecidableEq

/-- The total_samples sum of process_watch_events. -/
def total_samples (b : HealthDataBatch) : Nat :=
  b.heartRate.length + b.hrv.length + b.restingHeartRate.length +
  b.walkingHeartRateAverage.length + b.respiratoryRate.length +
  b.oxygenSaturation.length + b.vo2Max.length + b.steps.length +
  b.activeEnergy.length + b.exerciseTime.length + b.standTime.length +
  b.timeInDaylight.length + b.bodyMass.length + b.bodyFatPercentage.length +
  b.leanBodyMass.length + b.sleep.length + b.workouts.length

/-- The Firestore dedup-lock key of a batch. -/
def dedup_key (user_id : String) (fetched_at : Nat) : String :=
  "user_" ++ user_id ++ ":time_" ++ toString fetched_at

/-- A document of the ingested_events dedup collection. -/
structure DedupRecord where
  key : String
  user_id : String
  total_samples : Nat
  ingested_at : Nat
deriving Repr, DecidableEq

/-- A row of the raw watch_events table. -/
structure RawBatchRow where
  user_id : String
  fetched_at : Nat
  trace_id : String
  ingested_at : Nat
deriving Repr, DecidableEq

/-- A trigger message published to the watch_events topic. -/
structure TriggerMessage where
  user_id : String
  fetched_at : Nat
  trace_id : String
  total_samples : Nat
deriving Repr, DecidableEq

/-- The stores touched by ingestion: the dedup collection, the raw table,
the published triggers, a flag modelling a Firestore outage (the except
branch of the dedup block), the clock and the uuid supply. -/
structure IngestState where
  dedup_store : List DedupRecord
  raw_rows : List RawBatchRow
  published : List TriggerMessage
  dedup_fails : Bool
  now : Nat
  idSupply : Nat
deriving Repr, DecidableEq

/-- The dict returned by process_watch_events. -/
structure IngestResult where
  status : String
  message : String
  samples_received : Nat
deriving Repr, DecidableEq

/-- The uuid supply after settling the trace id of a batch: one id is
consumed when the batch carries none. -/
def ingestSupply (batch : HealthDataBatch) (s : IngestState) : Nat :=
  match batch.trace_id with
  | some _ => s.idSupply
  | none => s.idSupply + 1

/-- The ingestion trace id: the one the batch carries, or a fresh uuid
(logged as a traceability defect). -/
def ingestTraceId (batch : HealthDataBatch) (s : IngestState) : String :=
  match batch.trace_id with
  | some t => t
  | none => freshId s.idSupply

/-- Whether the dedup lookup reports the key as already claimed; when the
dedup store raises, the code never sees a hit. -/
def ingestHit (batch : HealthDataBatch) (user_id : String) (s : IngestState) : Bool :=
  !s.dedup_fails && s.dedup_store.any fun r => r.key == dedup_key user_id batch.fetchedAt

/-- The dedup store after the claim; when the dedup store raises, the lock
write is skipped too. -/
def ingestClaimedStore (batch : HealthDataBatch) (user_id : String) (s : IngestState) :
    List DedupRecord :=
  if s.dedup_fails then s.dedup_store
  else s.dedup_store ++
    [{ key := dedup_key user_id batch.fetchedAt, user_id := user_id,
       total_samples := total_samples batch, ingested_at := s.now }]

/-- The raw watch_events row written for a batch. -/
def ingestRawRow (batch : HealthDataBatch) (user_id : String) (s : IngestState) : RawBatchRow :=
  { user_id := user_id, fetched_at := batch.fetchedAt,
    trace_id := ingestTraceId batch s, ingested_at := s.now }

/-- The trigger message published for a batch. -/
def ingestTrigger (batch : HealthDataBatch) (user_id : String) (s : IngestState) : TriggerMessage :=
  { user_id := user_id, fetched_at := batch.fetchedAt,
    trace_id := ingestTraceId batch s, total_samples := total_samples batch }

/-- process_watch_events from services/ingestion.py: compute the sample
count, settle the trace id (mint one when missing), then dedup, write the
raw row and publish the trigger. On a dedup hit the call returns duplicate
with the sample count and performs no further write. When the dedup store
raises, the code logs a warning and proceeds with no dedup read and no lock
write. -/
def process_watch_events (batch : HealthDataBatch) (user_id : String) (s : IngestState) :
    IngestResult × IngestState :=
  if ingestHit batch user_id s then
    ({ status := "duplicate", message := "Event already processed (deduplicated)",
       samples_received := total_samples batch },
     { s with idSupply := ingestSupply batch s })
  else
    ({ status := "success", message := "Health data received and ingested",
       samples_received := total_samples batch },
     { s with
        dedup_store := ingestClaimedStore batch user_id s
        raw_rows := s.raw_rows ++ [ingestRawRow batch user_id s]
        published := s.published ++ [ingestTrigger batch user_id s]
        idSupply := ingestSupply batch s })

/-! ## Context aggregator (watch_events main.py get_context, context_repository.py) -/

/-- A denormalized intervention row of the context payload (also the row
shape of the selector listing endpoint). -/
structure ContextInterventionRow where
  intervention_instance_id : String
  user_id : String
  trace_id : Option String
  metric : String
  level : String
  surface : String
  intervention_key : String
  title : String
  body : String
  created_at : Option Nat := none
  scheduled_at : Option Nat := none
  sent_at : Option Nat := none
  status : String
deriving Repr, DecidableEq

/-- Stable insertion (descending by created_at) modelling
ORDER BY created_at DESC. -/
def insertByCreatedAtDesc (i : InterventionInstance) :
    List InterventionInstance → List InterventionInstance
  | [] => [i]
  | x :: xs =>
    if x.created_at < i.created_at then i :: x :: xs
    else x :: insertByCreatedAtDesc i xs

/-- Sort instance rows descending by created_at (ORDER BY created_at DESC). -/
def sortByCreatedAtDesc (l : List InterventionInstance) : List InterventionInstance :=
  l.foldr insertByCreatedAtDesc []

/-- get_created_interventions_for_user from context_repository.py: the rows
of the user with status created, newest first. -/
def get_created_interventions_for_user (instances : List InterventionInstance) (user_id : String) :
    List InterventionInstance :=
  sortByCreatedAtDesc (instances.filter fun i => i.user_id == user_id && i.status == "created")

/-- The lookup into the dict built by get_catalog_for_keys: the last catalog
row carrying the key wins, as in the Python dict fill. -/
def catalog_for_key (catalog : List CatalogRow) (k : String) : Option CatalogRow :=
  (catalog.filter fun r => r.intervention_key == k).getLast?

/-- The flow_requested recency check inlined in get_context: a
flow_requested event of the user for the flow within the last five minutes. -/
def has_recent_flow_request (events : List AppInteraction) (user_id flow_id : String) (now : Nat) : Bool :=
  !(events.filter fun e =>
      e.user_id == user_id && e.event_type == "flow_requested" && e.flow_id == some flow_id &&
      decide (now ≤ e.timestamp + 5 * 60000)).isEmpty

/-- True when a saved-set reset applies: a flow_reset with scope all or
scope saved. -/
def isSavedReset (user_id : String) (e : AppInteraction) : Bool :=
  e.user_id == user_id && e.event_type == "flow_reset" &&
  (e.scope == some "all" || e.scope == some "saved")

/-- True when the event is an intervention_saved / intervention_unsaved
event of the user carrying this intervention key. -/
def isSavedEventFor (user_id k : String) (e : AppInteraction) : Bool :=
  e.user_id == user_id &&
  (e.event_type == "intervention_saved" || e.event_type == "intervention_unsaved") &&
  e.intervention_key == some k

/-- The cte_reset subquery of get_saved_interventions: MAX(timestamp) over
the applicable resets, none when there is no such reset. -/
def savedResetTimestamp (events : List AppInteraction) (user_id : String) : Option Nat :=
  (events.filter (isSavedReset user_id)).foldl
    (fun acc e =>
      match acc with
      | none => some e.timestamp
      | some t => some (max t e.timestamp))
    none

/-- The distinct intervention keys carried by saved / unsaved events of the
user (the PARTITION BY key of the cte_events subquery). -/
def savedEventKeys (events : List AppInteraction) (user_id : String) : List String :=
  ((events.filter fun e =>
      e.user_id == user_id &&
      (e.event_type == "intervention_saved" || e.event_type == "intervention_unsaved")).filterMap
    (·.intervention_key)).dedup

/-- get_saved_interventions from context_repository.py: keys whose latest
saved / unsaved event is a save and postdates the latest applicable reset. -/
def get_saved_interventions (events : List AppInteraction) (user_id : String) : List String :=
  (savedEventKeys events user_id).filter fun k =>
    match latestEvent (events.filter (isSavedEventFor user_id k)) with
    | none => false
    | some e =>
      e.event_type == "intervention_saved" &&
      (match savedResetTimestamp events user_id with
       | none => true
       | some rt => decide (rt < e.timestamp))

/-- The state read and written by the context endpoint. -/
structure ContextStore where
  instances : List InterventionInstance
  interactions : List AppInteraction
  catalog : List CatalogRow
  latest_estimate : Option StateEstimate
  now : Nat
  idSupply : Nat
deriving Repr, DecidableEq

/-- The payload of GET /context together with the post-state of the store. -/
structure ContextResult where
  interventions : List ContextInterventionRow
  saved_interventions : List String
  store : ContextStore
deriving Repr, DecidableEq

/-- The hardcoded getting_started card that get_context inserts at the front
of the interventions payload whenever the flow is not completed; its
trace_id is the constant string getting-started-trace-id and its
instance id is a fresh uuid on every call. -/
def syntheticGettingStartedRow (user_id : String) (instance_id : String) (now : Nat) :
    ContextInterventionRow :=
  { intervention_instance_id := instance_id
    user_id := user_id
    trace_id := some "getting-started-trace-id"
    metric := "getting_started"
    level := "info"
    surface := "notification"
    intervention_key := "getting_started_v1"
    title := "Welcome to SHIFT"
    body := "Get started with your personal health operating system"
    created_at := some now
    scheduled_at := none
    sent_at := none
    status := "created" }

/-- get_context from watch_events main.py: the onboarding auto-create, the
join of created instances with the catalog (stored trace ids passed through
unchanged), the unconditional synthetic getting_started card while the flow
is uncompleted, and the saved-interventions list. -/
def get_context (user_id : String) (s : ContextStore) : ContextResult :=
  let getting_started_completed := has_completed_flow s.interactions user_id "getting_started" "v1"
  let flow_requested := has_recent_flow_request s.interactions user_id "getting_started" s.now
  let s1 :=
    if !getting_started_completed || flow_requested then
      let instance_exists := !(s.instances.filter fun i =>
        i.user_id == user_id && i.intervention_key == "getting_started_v1" &&
        i.status == "created").isEmpty
      if !instance_exists then
        match get_catalog_intervention_by_key s.catalog "getting_started_v1" with
        | some cat =>
          let trace_id := freshId s.idSupply
          let inst := mkCreatedInstance (freshId (s.idSupply + 1)) user_id (some trace_id)
            cat.metric cat.level cat.surface "getting_started_v1" s.now
          { s with instances := s.instances ++ [inst], idSupply := s.idSupply + 2 }
        | none => s
      else s
    else s
  let created := get_created_interventions_for_user s1.instances user_id
  let joined := created.filterMap fun inst =>
    match catalog_for_key s1.catalog inst.intervention_key with
    | none => none
    | some cat => some
        { intervention_instance_id := inst.intervention_instance_id
          user_id := inst.user_id
          trace_id := inst.trace_id
          metric := inst.metric
          level := inst.level
          surface := inst.surface
          intervention_key := inst.intervention_key
          title := cat.title
          body := cat.body
          created_at := some inst.created_at
          scheduled_at := inst.scheduled_at
          sent_at := inst.sent_at
          status := inst.status }
  let interventions :=
    if !getting_started_completed then
      syntheticGettingStartedRow user_id (freshId s1.idSupply) s1.now :: joined
    else joined
  let supply := if !getting_started_completed then s1.idSupply + 1 else s1.idSupply
  { interventions := interventions
    saved_interventions := get_saved_interventions s1.interactions user_id
    store := { s1 with idSupply := supply } }

/-- get_interventions_for_user from the selector bigquery_client.py (the
selector HTTP listing endpoint): rows of the user with the given status,
joined with the catalog; a missing trace id is replaced by a fresh uuid and
logged as a traceability defect, never returned as null. -/
def get_interventions_for_user (instances : List InterventionInstance) (catalog : List CatalogRow)
    (user_id status : String) (idSupply : Nat) : List ContextInterventionRow :=
  let rows := sortByCreatedAtDesc (instances.filter fun i =>
    i.user_id == user_id && i.status == status)
  (rows.foldl
    (fun (acc : List ContextInterventionRow × Nat) row =>
      match get_catalog_intervention_by_key catalog row.intervention_key with
      | none => acc
      | some cat =>
        let supply := match row.trace_id with
          | some _ => acc.2
          | none => acc.2 + 1
        let trace_id := match row.trace_id with
          | some t => t
          | none => freshId acc.2
        (acc.1 ++
          [{ intervention_instance_id := row.intervention_instance_id
             user_id := row.user_id
             trace_id := some trace_id
             metric := row.metric
             level := row.level
             surface := row.surface
             intervention_key := row.intervention_key
             title := cat.title
             body := cat.body
             created_at := some row.created_at
             scheduled_at := row.scheduled_at
             sent_at := row.sent_at
             status := row.status }],
         supply))
    ([], idSupply)).1

/-! ## Concrete scenario data used by the claim theorems -/

/-- A catalog with a single enabled high-stress notification row. -/
def exCatalogHigh : List CatalogRow :=
  [{ intervention_key := "K_high", metric := "stress", level := "high",
     surface := "notification", title := "Take a break", body := "Breathe.", enabled := true }]

/-- A state estimate with high stress and a trace id. -/
def exEstimateHigh : StateEstimate :=
  { user_id := "u1", timestamp := 5, trace_id := some "T1", stress := some (mkQ 85 100) }

/-- The selected intervention for exCatalogHigh under empty preferences. -/
def exSelectedHigh : SelectedIntervention :=
  { intervention_key := "K_high", metric := "stress", level := "high",
    surface := "notification", title := "Take a break", body := "Breathe.", nudge_type := none }

/-- An already-created instance of user u1 inside the 30-minute window
ending at time 1000000. -/
def c1RecentInstance (instance_id : String) : InterventionInstance :=
  mkCreatedInstance instance_id "u1" (some "T0") "stress" "high" "notification" "K_high" 999000

/-- A selector state in which user u1 already has three instances created
within the last 30 minutes and a new high-stress estimate arrives. -/
def c1State : SelectorState :=
  { latest_estimate := some exEstimateHigh
    catalog := exCatalogHigh
    surface_prefs := []
    instances := [c1RecentInstance "i1", c1RecentInstance "i2", c1RecentInstance "i3"]
    interactions := []
    device_token := none
    push_succeeds := false
    now := 1000000
    idSupply := 0 }

/-- A stored instance row whose trace_id is null (a legacy row; the schema
allows it and create_intervention_instance predates the trace requirement). -/
def c2LegacyInstance : InterventionInstance :=
  { intervention_instance_id := "i1", user_id := "u1", trace_id := none,
    metric := "stress", level := "high", surface := "notification",
    intervention_key := "K_high", created_at := 10, scheduled_at := none,
    sent_at := none, status := "created" }

/-- A flow_completed event for getting_started v1 by user u1, so that
get_context neither auto-creates nor injects the synthetic card. -/
def c2CompletedEvent : AppInteraction :=
  { interaction_id := "a1", trace_id := "t1", user_id := "u1",
    event_type := "flow_completed", timestamp := 5,
    flow_id := some "getting_started", flow_version := some "v1" }

/-- A context store holding only the legacy null-trace instance. -/
def c2Store : ContextStore :=
  { instances := [c2LegacyInstance]
    interactions := [c2CompletedEvent]
    catalog := exCatalogHigh
    latest_estimate := none
    now := 1000
    idSupply := 0 }

/-- A catalog containing the current onboarding entry. -/
def c3Catalog : List CatalogRow :=
  [{ intervention_key := "getting_started_v1", metric := "onboarding", level := "default",
     surface := "chat_card", title := "Getting started", body := "Welcome flow", enabled := true }]

/-- The store of a fresh user: no instances, no interactions, no estimate. -/
def c3Store : ContextStore :=
  { instances := [], interactions := [], catalog := c3Catalog,
    latest_estimate := none, now := 0, idSupply := 0 }

/-- The flow_completed event appended after the user finishes onboarding. -/
def c3CompletedEvent : AppInteraction :=
  { interaction_id := "a9", trace_id := "t9", user_id := "u2",
    event_type := "flow_completed", timestamp := 50,
    flow_id := some "getting_started", flow_version := some "v1" }

/-- A freshly created instance table with one row. -/
def c4CreatedTable : List InterventionInstance :=
  [] ++ [mkCreatedInstance "i1" "u1" (some "t1") "stress" "high" "notification" "K_high" 100]

/-- The same table after the push-success update marks the row sent. -/
def c4SentTable : List InterventionInstance :=
  update_intervention_instance_status c4CreatedTable "i1" "sent" (some 200)

/-- A tapped interaction event referencing the sent instance. -/
def c4TappedEvent : AppInteraction :=
  { interaction_id := "a2", trace_id := "t2", user_id := "u1",
    intervention_instance_id := some "i1", event_type := "tapped", timestamp := 300 }

/-- An ingestion state with an empty dedup store. -/
def c8State : IngestState :=
  { dedup_store := [], raw_rows := [], published := [], dedup_fails := false,
    now := 42, idSupply := 0 }

/-- A small health batch with two samples and a trace id. -/
def c8Batch : HealthDataBatch :=
  { heartRate := [Sample.mk], steps := [Sample.mk], fetchedAt := 777, trace_id := some "T7" }

/-- An ingestion state in which the dedup store is unavailable. -/
def c10State : IngestState :=
  { dedup_store := [], raw_rows := [], published := [], dedup_fails := true,
    now := 43, idSupply := 0 }

/-- An intervention_saved event. -/
def mkSavedEvent (interaction_id : String) (k : String) (t : Nat) : AppInteraction :=
  { interaction_id := interaction_id, trace_id := "t", user_id := "u3",
    event_type := "intervention_saved", timestamp := t, intervention_key := some k }

/-- An intervention_unsaved event. -/
def mkUnsavedEvent (interaction_id : String) (k : String) (t : Nat) : AppInteraction :=
  { interaction_id := interaction_id, trace_id := "t", user_id := "u3",
    event_type := "intervention_unsaved", timestamp := t, intervention_key := some k }

/-- A flow_reset event with the given scope. -/
def mkResetEvent (interaction_id : String) (scope : String) (t : Nat) : AppInteraction :=
  { interaction_id := interaction_id, trace_id := "t", user_id := "u3",
    event_type := "flow_reset", timestamp := t, scope := some scope }

/-- Scenario log: save K1, save K2, unsave K1. -/
def c9Events1 : List AppInteraction :=
  [mkSavedEvent "e1" "K1" 1, mkSavedEvent "e2" "K2" 2, mkUnsavedEvent "e3" "K1" 3]

/-- Scenario log: then reset the saved set. -/
def c9Events2 : List AppInteraction := c9Events1 ++ [mkResetEvent "e4" "saved" 4]

/-- Scenario log: then save K1 again. -/
def c9Events3 : List AppInteraction := c9Events2 ++ [mkSavedEvent "e5" "K1" 5]

/-- The latest saved / unsaved event of the user for a key, stated as the
specification words it: the last such event of the append-ordered log. -/
def latestSavedEventSpec (events : List AppInteraction) (user_id k : String) : Option AppInteraction :=
  (events.filter (isSavedEventFor user_id k)).getLast?

/-- The saved-set membership condition as the specification words it: the
latest saved / unsaved event for the key is a save, and it is strictly later
than every reset of scope all or saved. -/
def specSavedKey (events : List AppInteraction) (user_id k : String) : Prop :=
  ∃ e, latestSavedEventSpec events user_id k = some e ∧
    e.event_type = "intervention_saved" ∧
    ∀ r ∈ events, isSavedReset user_id r = true → r.timestamp < e.timestamp

/-- A surface preference row with full annoyance and a given shown count. -/
def c5Pref (n : Nat) : SurfacePref :=
  { preference_score := mkQ 0 1, annoyance_rate := mkQ 1 1, shown_count := n }

/-- The row the selector listing endpoint returns for the legacy null-trace
instance, with the minted trace id uuid-7. -/
def c2ListedRow : ContextInterventionRow :=
  { intervention_instance_id := "i1", user_id := "u1", trace_id := some "uuid-7",
    metric := "stress", level := "high", surface := "notification",
    intervention_key := "K_high", title := "Take a break", body := "Breathe.",
    created_at := some 10, scheduled_at := none, sent_at := none,
    status := "created" }

/-! ## Bridging lemmas -/

theorem qadd_eq_add (a b : ℚ) : qadd a b = a + b := by
  unfold qadd
  rw [← Rat.num_divInt_den a, ← Rat.num_divInt_den b,
    Rat.divInt_add_divInt _ _ (by exact_mod_cast a.den_nz) (by exact_mod_cast b.den_nz)]
  simp [Rat.num_divInt_den]

theorem bucket_high_iff (q : ℚ) : bucket_stress (some q) = some "high" ↔ mkQ 7 10 < q := by
  simp only [bucket_stress, STRESS_HIGH_THRESHOLD, STRESS_MEDIUM_THRESHOLD, gt_iff_lt, ge_iff_le]
  constructor
  · intro h
    by_contra hq
    rw [if_neg hq] at h
    by_cases h2 : q ≥ mkQ 3 10
    · rw [if_pos h2] at h
      exact absurd (Option.some.inj h) (by decide)
    · rw [if_neg h2] at h
      exact absurd (Option.some.inj h) (by decide)
  · intro h
    rw [if_pos h]

theorem bucket_medium_iff (q : ℚ) :
    bucket_stress (some q) = some "medium" ↔ (mkQ 3 10 ≤ q ∧ q ≤ mkQ 7 10) := by
  simp only [bucket_stress, STRESS_HIGH_THRESHOLD, STRESS_MEDIUM_THRESHOLD, gt_iff_lt, ge_iff_le]
  constructor
  · intro h
    by_cases h1 : mkQ 7 10 < q
    · rw [if_pos h1] at h
      exact absurd (Option.some.inj h) (by decide)
    · rw [if_neg h1] at h
      by_cases h2 : q ≥ mkQ 3 10
      · exact ⟨h2, not_lt.mp h1⟩
      · rw [if_neg h2] at h
        exact absurd (Option.some.inj h) (by decide)
  · intro ⟨h2, h1⟩
    rw [if_neg (not_lt.mpr h1), if_pos h2]

theorem bucket_low_iff (q : ℚ) : bucket_stress (some q) = some "low" ↔ q < mkQ 3 10 := by
  simp only [bucket_stress, STRESS_HIGH_THRESHOLD, STRESS_MEDIUM_THRESHOLD, gt_iff_lt, ge_iff_le]
  constructor
  · intro h
    by_cases h1 : mkQ 7 10 < q
    · rw [if_pos h1] at h
      exact absurd (Option.some.inj h) (by decide)
    · rw [if_neg h1] at h
      by_cases h2 : q ≥ mkQ 3 10
      · rw [if_pos h2] at h
        exact absurd (Option.some.inj h) (by decide)
      · exact not_le.mp h2
  · intro h
    have h1 : ¬ (mkQ 7 10 < q) := by
      intro hc
      exact absurd (lt_trans hc h) (by decide)
    rw [if_neg h1, if_neg (not_le.mpr h)]

/-- C6: the stress bucketing maps a score to high exactly when it exceeds
0.7, to medium exactly when it lies in [0.3, 0.7], and to low exactly when
it is below 0.3 (so 0.7 buckets to medium, 0.7001 to high, 0.3 to medium and
0.2999 to low); and when the stress score is absent the selector selects
nothing. -/
theorem c6_bucket_thresholds :
    (∀ q : ℚ, bucket_stress (some q) = some "high" ↔ mkQ 7 10 < q) ∧
    (∀ q : ℚ, bucket_stress (some q) = some "medium" ↔ (mkQ 3 10 ≤ q ∧ q ≤ mkQ 7 10)) ∧
    (∀ q : ℚ, bucket_stress (some q) = some "low" ↔ q < mkQ 3 10) ∧
    bucket_stress (some (mkQ 7 10)) = some "medium" ∧
    bucket_stress (some (mkQ 7001 10000)) = some "high" ∧
    bucket_stress (some (mkQ 3 10)) = some "medium" ∧
    bucket_stress (some (mkQ 2999 10000)) = some "low" ∧
    (∀ (est : StateEstimate) (catalog : List CatalogRow) (prefs : List (String × SurfacePref)),
      est.stress = none → select_intervention est catalog prefs = none) :=
  ⟨bucket_high_iff, bucket_medium_iff, bucket_low_iff,
    by decide, by decide, by decide, by decide,
    fun est catalog prefs h => by unfold select_intervention; rw [h]⟩

/-- Witness for C6 at a concrete input: a state estimate with no stress
score selects nothing. -/
theorem c6_bucket_witness :
    select_intervention { user_id := "u0", timestamp := 0, trace_id := none, stress := none }
      exCatalogHigh [] = none :=
  c6_bucket_thresholds.2.2.2.2.2.2.2
    { user_id := "u0", timestamp := 0, trace_id := none, stress := none } exCatalogHigh [] rfl

theorem scoreAndFilter_candidates (candidates : List CatalogRow)
    (prefs : List (String × SurfacePref)) :
    (scoreAndFilter candidates prefs).map (·.candidate) =
      candidates.filter (fun c => !isSuppressed prefs c.surface) := by
  induction candidates with
  | nil => rfl
  | cons c cs ih =>
    unfold scoreAndFilter at ih ⊢
    rw [List.filterMap_cons, List.filter_cons]
    cases h : isSuppressed prefs c.surface with
    | false => simp [h, ih]
    | true => simp [h, ih]

theorem scoreAndFilter_mem {candidates : List CatalogRow} {prefs : List (String × SurfacePref)}
    {s : Scored} (h : s ∈ scoreAndFilter candidates prefs) :
    isSuppressed prefs s.surface = false ∧ s.surface = s.candidate.surface ∧
    s.final_score = qadd (mkQ 1 1) (prefScore prefs s.surface) := by
  induction candidates with
  | nil => exact absurd h (List.not_mem_nil s)
  | cons c cs ih =>
    unfold scoreAndFilter at h
    rw [List.filterMap_cons] at h
    cases hc : isSuppressed prefs c.surface with
    | true =>
      rw [hc] at h
      simp only [if_true] at h
      exact ih h
    | false =>
      rw [hc] at h
      simp only [Bool.false_eq_true, if_false] at h
      rcases List.mem_cons.mp h with h1 | h1
      · subst h1
        exact ⟨hc, rfl, rfl⟩
      · exact ih h1

theorem foldl_pick_mem (a : Scored) (l : List Scored) :
    l.foldl (fun best y => if ranksBefore y best then y else best) a ∈ a :: l := by
  induction l generalizing a with
  | nil => simp
  | cons y ys ih =>
    rw [List.foldl_cons]
    rcases List.mem_cons.mp (ih (if ranksBefore y a then y else a)) with h | h
    · cases hp : ranksBefore y a with
      | true => rw [hp] at h; simp only [if_true] at h; simp [h]
      | false => rw [hp] at h; simp only [Bool.false_eq_true, if_false] at h; simp [h]
    · simp [List.mem_cons.mpr (Or.inr (List.mem_cons.mpr (Or.inr h)))]

theorem pickBest_mem {l : List Scored} {r : Scored} (h : pickBest l = some r) : r ∈ l := by
  cases l with
  | nil => exact absurd h (by simp [pickBest])
  | cons x xs =>
    unfold pickBest at h
    have := foldl_pick_mem x xs
    rw [Option.some.inj h] at this
    exact this

theorem select_intervention_some {est : StateEstimate} {catalog : List CatalogRow}
    {prefs : List (String × SurfacePref)} {sel : SelectedIntervention}
    (h : select_intervention est catalog prefs = some sel) :
    ∃ level s, bucket_stress est.stress = some level ∧
      s ∈ scoreAndFilter (get_interventions_for_state catalog "stress" level) prefs ∧
      pickBest (scoreAndFilter (get_interventions_for_state catalog "stress" level) prefs) = some s ∧
      sel = { intervention_key := s.candidate.intervention_key, metric := s.candidate.metric,
              level := s.candidate.level, surface := s.candidate.surface,
              title := s.candidate.title, body := s.candidate.body,
              nudge_type := s.candidate.nudge_type } := by
  unfold select_intervention at h
  cases hst : est.stress with
  | none => rw [hst] at h; exact absurd h (by simp)
  | some q =>
    rw [hst] at h
    simp only at h
    cases hb : bucket_stress (some q) with
    | none => exact absurd hb (by simp only [bucket_stress]; split_ifs <;> simp)
    | some level =>
      rw [hb] at h
      simp only at h
      by_cases he : (get_interventions_for_state catalog "stress" level).isEmpty
      · rw [if_pos he] at h
        exact absurd h (by simp)
      · rw [if_neg he] at h
        cases hp : pickBest (scoreAndFilter (get_interventions_for_state catalog "stress" level) prefs) with
        | none => rw [hp] at h; exact absurd h (by simp)
        | some s =>
          rw [hp] at h
          simp only [Option.some.injEq] at h
          exact ⟨level, s, rfl, pickBest_mem hp, hp, h.symm⟩

/-- C5: a candidate is dropped by the score-and-filter step exactly when its
surface has shown_count at least 5 and annoyance_rate, capped at 0.9,
strictly above 0.7; annoyance 1.0 with shown_count 4 is kept, with
shown_count 5 it is dropped; and the surface of any selected candidate never
satisfies the suppression condition. -/
theorem c5_suppression_rule :
    (∀ (candidates : List CatalogRow) (prefs : List (String × SurfacePref)),
      (scoreAndFilter candidates prefs).map (·.candidate) =
        candidates.filter (fun c => !isSuppressed prefs c.surface)) ∧
    (∀ (prefs : List (String × SurfacePref)) (surface : String),
      isSuppressed prefs surface = true ↔
        (5 ≤ shownCount prefs surface ∧ mkQ 7 10 < qmin (annoyanceRate prefs surface) (mkQ 9 10))) ∧
    isSuppressed [("notification", c5Pref 4)] "notification" = false ∧
    isSuppressed [("notification", c5Pref 5)] "notification" = true ∧
    (∀ (est : StateEstimate) (catalog : List CatalogRow) (prefs : List (String × SurfacePref))
      (sel : SelectedIntervention),
      select_intervention est catalog prefs = some sel →
      isSuppressed prefs sel.surface = false) := by
  refine ⟨scoreAndFilter_candidates, ?_, by decide, by decide, ?_⟩
  · intro prefs surface
    unfold isSuppressed
    rw [Bool.and_eq_true, decide_eq_true_eq, decide_eq_true_eq]
  · intro est catalog prefs sel h
    obtain ⟨level, s, _, hmem, _, hsel⟩ := select_intervention_some h
    obtain ⟨hsup, hsurf, _⟩ := scoreAndFilter_mem hmem
    rw [hsel]
    simp only
    rw [← hsurf]
    exact hsup

/-- Witness for C5 at a concrete input: the concrete selection of K_high
under empty preferences has an unsuppressed surface. -/
theorem c5_suppression_witness :
    select_intervention exEstimateHigh exCatalogHigh [] = some exSelectedHigh ∧
    isSuppressed [] exSelectedHigh.surface = false :=
  ⟨by decide, c5_suppression_rule.2.2.2.2 exEstimateHigh exCatalogHigh [] exSelectedHigh (by decide)⟩

theorem charListLt_irrefl : ∀ l : List Char, charListLt l l = false
  | [] => rfl
  | a :: as => by
    simp only [charListLt, lt_irrefl, if_false]
    exact charListLt_irrefl as

theorem charListLt_trans : ∀ {x y z : List Char},
    charListLt x y = true → charListLt y z = true → charListLt x z = true
  | [], [], _, h1, _ => by simp [charListLt] at h1
  | [], _ :: _, [], _, h2 => by simp [charListLt] at h2
  | [], _ :: _, _ :: _, _, _ => rfl
  | _ :: _, [], _, h1, _ => by simp [charListLt] at h1
  | _ :: _, _ :: _, [], _, h2 => by simp [charListLt] at h2
  | a :: as, b :: bs, c :: cs, h1, h2 => by
    simp only [charListLt] at h1 h2 ⊢
    by_cases hab : a.toNat < b.toNat
    · by_cases hbc : b.toNat < c.toNat
      · rw [if_pos (lt_trans hab hbc)]
      · by_cases hcb : c.toNat < b.toNat
        · rw [if_neg hbc, if_pos hcb] at h2
          exact absurd h2 (by decide)
        · have hac : a.toNat < c.toNat := by omega
          rw [if_pos hac]
    · by_cases hba : b.toNat < a.toNat
      · rw [if_neg hab, if_pos hba] at h1
        exact absurd h1 (by decide)
      · rw [if_neg hab, if_neg hba] at h1
        by_cases hbc : b.toNat < c.toNat
        · have hac : a.toNat < c.toNat := by omega
          rw [if_pos hac]
        · by_cases hcb : c.toNat < b.toNat
          · rw [if_neg hbc, if_pos hcb] at h2
            exact absurd h2 (by decide)
          · rw [if_neg hbc, if_neg hcb] at h2
            have hac : ¬ a.toNat < c.toNat := by omega
            have hca : ¬ c.toNat < a.toNat := by omega
            rw [if_neg hac, if_neg hca]
            exact charListLt_trans h1 h2

theorem charListLt_neg_trans : ∀ {x y z : List Char},
    charListLt x y = false → charListLt y z = false → charListLt x z = false
  | x, _, [], _, _ => by cases x <;> rfl
  | [], [], _ :: _, _, h2 => h2
  | [], _ :: _, _ :: _, h1, _ => by simp [charListLt] at h1
  | _ :: _, [], _ :: _, _, h2 => by simp [charListLt] at h2
  | a :: as, b :: bs, c :: cs, h1, h2 => by
    simp only [charListLt] at h1 h2 ⊢
    by_cases hab : a.toNat < b.toNat
    · rw [if_pos hab] at h1
      exact absurd h1 (by decide)
    · by_cases hbc : b.toNat < c.toNat
      · rw [if_pos hbc] at h2
        exact absurd h2 (by decide)
      · by_cases hba : b.toNat < a.toNat
        · have hca : c.toNat < a.toNat := by omega
          rw [if_neg (by omega), if_pos hca]
        · rw [if_neg hab, if_neg hba] at h1
          by_cases hcb : c.toNat < b.toNat
          · have hca : c.toNat < a.toNat := by omega
            rw [if_neg (by omega), if_pos hca]
          · rw [if_neg hbc, if_neg hcb] at h2
            rw [if_neg (by omega), if_neg (by omega)]
            exact charListLt_neg_trans h1 h2

theorem ranksBefore_irrefl (a : Scored) : ranksBefore a a = false := by
  simp [ranksBefore, strLt, lt_irrefl, charListLt_irrefl]

theorem ranksBefore_trans {a b c : Scored}
    (h1 : ranksBefore a b = true) (h2 : ranksBefore b c = true) : ranksBefore a c = true := by
  simp only [ranksBefore, strLt, Bool.or_eq_true, Bool.and_eq_true, decide_eq_true_eq] at h1 h2 ⊢
  rcases h1 with h1 | ⟨e1, k1⟩
  · rcases h2 with h2 | ⟨e2, _⟩
    · exact Or.inl (lt_trans h2 h1)
    · exact Or.inl (e2 ▸ h1)
  · rcases h2 with h2 | ⟨e2, k2⟩
    · exact Or.inl (by rw [e1]; exact h2)
    · exact Or.inr ⟨e1.trans e2, charListLt_trans k1 k2⟩

theorem ranksBefore_neg_trans {y a r : Scored}
    (h1 : ranksBefore y a = false) (h2 : ranksBefore a r = false) : ranksBefore y r = false := by
  simp only [ranksBefore, strLt, Bool.or_eq_false_iff, Bool.and_eq_false_iff,
    decide_eq_false_iff_not] at h1 h2 ⊢
  obtain ⟨hs1, hk1⟩ := h1
  obtain ⟨hs2, hk2⟩ := h2
  have hya : y.final_score ≤ a.final_score := not_lt.mp hs1
  have har : a.final_score ≤ r.final_score := not_lt.mp hs2
  constructor
  · intro hrlt
    exact absurd (lt_of_lt_of_le hrlt (le_trans hya har)) (lt_irrefl _)
  · rcases hk1 with hk1 | hk1
    · left
      intro hyr
      exact hk1 (le_antisymm hya (hyr ▸ har))
    · rcases hk2 with hk2 | hk2
      · left
        intro hyr
        exact hk2 (le_antisymm har (hyr ▸ hya))
      · right
        exact charListLt_neg_trans hk1 hk2

theorem foldl_pick_optimal (l : List Scored) (a : Scored) :
    ranksBefore a (l.foldl (fun best y => if ranksBefore y best then y else best) a) = false ∧
    ∀ t ∈ l, ranksBefore t (l.foldl (fun best y => if ranksBefore y best then y else best) a) = false := by
  induction l generalizing a with
  | nil => exact ⟨ranksBefore_irrefl a, by simp⟩
  | cons y ys ih =>
    rw [List.foldl_cons]
    cases hp : ranksBefore y a with
    | true =>
      rw [if_pos rfl]
      obtain ⟨h1, h2⟩ := ih y
      have ha : ranksBefore a (ys.foldl (fun best y => if ranksBefore y best then y else best) y) = false := by
        cases har : ranksBefore a (ys.foldl (fun best y => if ranksBefore y best then y else best) y) with
        | false => rfl
        | true => rw [ranksBefore_trans hp har] at h1; exact h1
      refine ⟨ha, ?_⟩
      intro t ht
      rcases List.mem_cons.mp ht with rfl | ht
      · exact h1
      · exact h2 t ht
    | false =>
      rw [if_neg Bool.false_ne_true]
      obtain ⟨h1, h2⟩ := ih a
      refine ⟨h1, ?_⟩
      intro t ht
      rcases List.mem_cons.mp ht with rfl | ht
      · exact ranksBefore_neg_trans hp h1
      · exact h2 t ht

theorem pickBest_optimal {l : List Scored} {r : Scored} (h : pickBest l = some r) :
    r ∈ l ∧ ∀ t ∈ l, ranksBefore t r = false := by
  cases l with
  | nil => exact absurd h (by simp [pickBest])
  | cons x xs =>
    unfold pickBest at h
    obtain ⟨h1, h2⟩ := foldl_pick_optimal xs x
    rw [Option.some.inj h] at h1 h2
    refine ⟨pickBest_mem (by rw [pickBest]; exact h), ?_⟩
    intro t ht
    rcases List.mem_cons.mp ht with rfl | ht
    · exact h1
    · exact h2 t ht

/-- C7: among the candidates surviving suppression the selector returns one
with maximal final_score, where final_score is 1.0 plus the preference score
of the surface (defaulting to 0 without a preference row), ties going to the
lexicographically smallest intervention_key; with no surviving candidate it
returns nothing. -/
theorem c7_argmax_selection :
    (∀ (candidates : List CatalogRow) (prefs : List (String × SurfacePref)) (s : Scored),
      s ∈ scoreAndFilter candidates prefs →
      s.final_score = 1 + prefScore prefs s.surface) ∧
    (∀ (prefs : List (String × SurfacePref)) (surface : String),
      findPref prefs surface = none → prefScore prefs surface = 0) ∧
    (∀ (est : StateEstimate) (catalog : List CatalogRow) (prefs : List (String × SurfacePref))
      (sel : SelectedIntervention),
      select_intervention est catalog prefs = some sel →
      ∃ level s, bucket_stress est.stress = some level ∧
        s ∈ scoreAndFilter (get_interventions_for_state catalog "stress" level) prefs ∧
        sel.intervention_key = s.candidate.intervention_key ∧
        (∀ t ∈ scoreAndFilter (get_interventions_for_state catalog "stress" level) prefs,
          t.final_score ≤ s.final_score) ∧
        (∀ t ∈ scoreAndFilter (get_interventions_for_state catalog "stress" level) prefs,
          t.final_score = s.final_score →
          strLt t.candidate.intervention_key s.candidate.intervention_key = false)) ∧
    (∀ (est : StateEstimate) (catalog : List CatalogRow) (prefs : List (String × SurfacePref))
      (level : String) (q : ℚ),
      est.stress = some q → bucket_stress (some q) = some level →
      scoreAndFilter (get_interventions_for_state catalog "stress" level) prefs = [] →
      select_intervention est catalog prefs = none) := by
  refine ⟨?_, ?_, ?_, ?_⟩
  · intro candidates prefs s hs
    have h3 := (scoreAndFilter_mem hs).2.2
    rw [h3, qadd_eq_add]
    norm_num [mkQ]
  · intro prefs surface h
    unfold prefScore
    rw [h]
    rfl
  · intro est catalog prefs sel h
    obtain ⟨level, s, hb, hmem, hp, hsel⟩ := select_intervention_some h
    obtain ⟨_, hopt⟩ := pickBest_optimal hp
    refine ⟨level, s, hb, hmem, by rw [hsel], ?_, ?_⟩
    · intro t ht
      have := hopt t ht
      simp only [ranksBefore, Bool.or_eq_false_iff, Bool.and_eq_false_iff,
        decide_eq_false_iff_not] at this
      exact not_lt.mp this.1
    · intro t ht htfs
      have := hopt t ht
      simp only [ranksBefore, Bool.or_eq_false_iff, Bool.and_eq_false_iff,
        decide_eq_false_iff_not] at this
      rcases this.2 with hc | hc
      · exact absurd htfs hc
      · exact hc
  · intro est catalog prefs level q hst hb hempty
    unfold select_intervention
    rw [hst]
    simp only
    rw [hb]
    simp only
    by_cases he : (get_interventions_for_state catalog "stress" level).isEmpty
    · rw [if_pos he]
    · rw [if_neg he, hempty]
      rfl

/-- Witness for C7 at a concrete input: the concrete selection of K_high
under empty preferences is an argmax of the scored candidates. -/
theorem c7_argmax_witness :
    select_intervention exEstimateHigh exCatalogHigh [] = some exSelectedHigh ∧
    ∃ level s, bucket_stress exEstimateHigh.stress = some level ∧
      s ∈ scoreAndFilter (get_interventions_for_state exCatalogHigh "stress" level) [] ∧
      exSelectedHigh.intervention_key = s.candidate.intervention_key ∧
      (∀ t ∈ scoreAndFilter (get_interventions_for_state exCatalogHigh "stress" level) [],
        t.final_score ≤ s.final_score) ∧
      (∀ t ∈ scoreAndFilter (get_interventions_for_state exCatalogHigh "stress" level) [],
        t.final_score = s.final_score →
        strLt t.candidate.intervention_key s.candidate.intervention_key = false) :=
  ⟨by decide, c7_argmax_selection.2.2.1 exEstimateHigh exCatalogHigh [] exSelectedHigh (by decide)⟩

/-- C8: submitting the same batch twice makes at most one raw row and one
trigger: the first call claims the dedup key, writes and publishes once; the
second call sees the key, answers duplicate with the sample count, and
writes and publishes nothing further. -/
theorem c8_duplicate_submit (s : IngestState) (b : HealthDataBatch) (u : String)
    (hfail : s.dedup_fails = false)
    (hnew : (s.dedup_store.any fun r => r.key == dedup_key u b.fetchedAt) = false) :
    (process_watch_events b u s).2.raw_rows.length = s.raw_rows.length + 1 ∧
    (process_watch_events b u s).2.published.length = s.published.length + 1 ∧
    (process_watch_events b u s).1.status = "success" ∧
    (process_watch_events b u (process_watch_events b u s).2).1.status = "duplicate" ∧
    (process_watch_events b u (process_watch_events b u s).2).1.samples_received = total_samples b ∧
    (process_watch_events b u (process_watch_events b u s).2).2.raw_rows =
      (process_watch_events b u s).2.raw_rows ∧
    (process_watch_events b u (process_watch_events b u s).2).2.published =
      (process_watch_events b u s).2.published ∧
    (process_watch_events b u (process_watch_events b u s).2).2.dedup_store =
      (process_watch_events b u s).2.dedup_store := by
  simp [process_watch_events, ingestHit, ingestClaimedStore, hfail, hnew,
    List.any_append, List.length_append]

/-- Witness for C8 at a concrete input: a fresh state and a two-sample
batch. -/
theorem c8_duplicate_witness :
    c8State.dedup_fails = false ∧
    (c8State.dedup_store.any fun r => r.key == dedup_key "u1" c8Batch.fetchedAt) = false ∧
    ((process_watch_events c8Batch "u1" c8State).2.raw_rows.length = c8State.raw_rows.length + 1 ∧
     (process_watch_events c8Batch "u1" c8State).2.published.length = c8State.published.length + 1 ∧
     (process_watch_events c8Batch "u1" c8State).1.status = "success" ∧
     (process_watch_events c8Batch "u1" (process_watch_events c8Batch "u1" c8State).2).1.status = "duplicate" ∧
     (process_watch_events c8Batch "u1" (process_watch_events c8Batch "u1" c8State).2).1.samples_received =
       total_samples c8Batch ∧
     (process_watch_events c8Batch "u1" (process_watch_events c8Batch "u1" c8State).2).2.raw_rows =
       (process_watch_events c8Batch "u1" c8State).2.raw_rows ∧
     (process_watch_events c8Batch "u1" (process_watch_events c8Batch "u1" c8State).2).2.published =
       (process_watch_events c8Batch "u1" c8State).2.published ∧
     (process_watch_events c8Batch "u1" (process_watch_events c8Batch "u1" c8State).2).2.dedup_store =
       (process_watch_events c8Batch "u1" c8State).2.dedup_store) :=
  ⟨by decide, by decide, c8_duplicate_submit c8State c8Batch "u1" (by decide) (by decide)⟩

/-- C10: when the dedup store is unavailable, submit-batch logs and
proceeds: both submissions of the same batch succeed and two raw rows with
the same user and fetched_at exist afterwards. -/
theorem c10_dedup_failure_open (s : IngestState) (b : HealthDataBatch) (u : String)
    (hfail : s.dedup_fails = true) :
    (process_watch_events b u s).1.status = "success" ∧
    (process_watch_events b u (process_watch_events b u s).2).1.status = "success" ∧
    (process_watch_events b u (process_watch_events b u s).2).2.raw_rows.length =
      s.raw_rows.length + 2 ∧
    2 ≤ ((process_watch_events b u (process_watch_events b u s).2).2.raw_rows.filter
          fun r => r.user_id == u && r.fetched_at == b.fetchedAt).length := by
  refine ⟨?_, ?_, ?_, ?_⟩ <;>
    simp [process_watch_events, ingestHit, ingestClaimedStore, ingestRawRow, hfail,
      List.filter_append, List.length_append]

/-- Witness for C10 at a concrete input: a state whose dedup store is down
accepts the same batch twice. -/
theorem c10_dedup_failure_witness :
    c10State.dedup_fails = true ∧
    ((process_watch_events c8Batch "u1" c10State).1.status = "success" ∧
     (process_watch_events c8Batch "u1" (process_watch_events c8Batch "u1" c10State).2).1.status = "success" ∧
     (process_watch_events c8Batch "u1" (process_watch_events c8Batch "u1" c10State).2).2.raw_rows.length =
       c10State.raw_rows.length + 2 ∧
     2 ≤ ((process_watch_events c8Batch "u1" (process_watch_events c8Batch "u1" c10State).2).2.raw_rows.filter
           fun r => r.user_id == "u1" && r.fetched_at == c8Batch.fetchedAt).length) :=
  ⟨by decide, c10_dedup_failure_open c10State c8Batch "u1" (by decide)⟩

theorem app_interactions_status_update_cases {event_type st : String}
    (h : app_interactions_status_update event_type = some st) :
    st = "accepted" ∨ st = "dismissed" := by
  unfold app_interactions_status_update at h
  by_cases h1 : event_type == "tapped"
  · rw [if_pos h1] at h
    exact Or.inl (Option.some.inj h).symm
  · rw [if_neg h1] at h
    by_cases h2 : event_type == "dismissed"
    · rw [if_pos h2] at h
      exact Or.inr (Option.some.inj h).symm
    · rw [if_neg h2] at h
      exact absurd h (by simp)

theorem instances_reachable_status {l : List InterventionInstance}
    (h : InstancesReachable l) : ∀ i ∈ l, i.status ∈ allowedStatuses := by
  induction h with
  | empty => intro i hi; exact absurd hi (List.not_mem_nil i)
  | create l instance_id user_id trace_id metric level surface intervention_key now _ ih =>
    intro i hi
    rcases List.mem_append.mp hi with hi | hi
    · exact ih i hi
    · rw [List.mem_singleton.mp hi]
      simp [mkCreatedInstance, allowedStatuses]
  | pushSent l instance_id t _ ih =>
    intro i hi
    unfold update_intervention_instance_status at hi
    obtain ⟨j, hj, hij⟩ := List.mem_map.mp hi
    by_cases he : j.intervention_instance_id == instance_id
    · rw [if_pos he] at hij
      rw [← hij]
      simp [allowedStatuses]
    · rw [if_neg he] at hij
      rw [← hij]
      exact ih j hj
  | interact l e _ ih =>
    intro i hi
    unfold apply_app_interaction at hi
    cases hu : app_interactions_status_update e.event_type with
    | none =>
      rw [hu] at hi
      exact ih i hi
    | some st =>
      rw [hu] at hi
      cases hid : e.intervention_instance_id with
      | none =>
        rw [hid] at hi
        exact ih i hi
      | some instance_id =>
        rw [hid] at hi
        simp only at hi
        obtain ⟨j, hj, hij⟩ := List.mem_map.mp hi
        by_cases he : j.intervention_instance_id == instance_id
        · rw [if_pos he] at hij
          rw [← hij]
          rcases app_interactions_status_update_cases hu with h | h <;>
            simp [h, allowedStatuses]
        · rw [if_neg he] at hij
          rw [← hij]
          exact ih j hj

/-- C4 (amended): every reachable instance has a status among created, sent,
accepted, dismissed and failed; but the status writes are not guarded by the
current status: the tapped / dismissed update rewrites an instance whatever
status it currently has. -/
theorem c4_amended_status_machine :
    (∀ l : List InterventionInstance, InstancesReachable l →
      ∀ i ∈ l, i.status ∈ allowedStatuses) ∧
    (∀ (l : List InterventionInstance) (e : AppInteraction) (st instance_id : String),
      app_interactions_status_update e.event_type = some st →
      e.intervention_instance_id = some instance_id →
      ∀ i ∈ l, i.intervention_instance_id = instance_id →
        { i with status := st } ∈ apply_app_interaction l e) := by
  refine ⟨fun l h => instances_reachable_status h, ?_⟩
  intro l e st instance_id hu hid i hi hkey
  unfold apply_app_interaction
  rw [hu, hid]
  simp only
  have hbeq : (i.intervention_instance_id == instance_id) = true := by
    rw [hkey]
    exact beq_self_eq_true instance_id
  have heq : (fun j => if j.intervention_instance_id == instance_id then
      { j with status := st } else j) i = { i with status := st } := by
    simp only [hbeq, if_true]
  rw [← heq]
  exact List.mem_map_of_mem _ hi

/-- Counterexample for C4 as stated: a reachable table holds an instance
with status sent, and a tapped interaction moves it from sent to accepted,
a status change whose source is not created. -/
theorem c4_transition_from_sent_counterexample :
    InstancesReachable c4SentTable ∧
    c4SentTable.map (·.status) = ["sent"] ∧
    (apply_app_interaction c4SentTable c4TappedEvent).map (·.status) = ["accepted"] ∧
    ("sent" : String) ≠ "created" := by
  refine ⟨?_, by decide, by decide, by decide⟩
  exact .pushSent c4CreatedTable "i1" 200
    (.create [] "i1" "u1" (some "t1") "stress" "high" "notification" "K_high" 100 .empty)

/-- Witness for C4 at a concrete input: the invariant applied to the
reachable one-row table, and the unguarded update applied to the sent row. -/
theorem c4_amended_witness :
    ((c4SentTable.head?.map (·.status)) = some "sent") ∧
    (∀ i ∈ c4SentTable, i.status ∈ allowedStatuses) ∧
    ({ intervention_instance_id := "i1", user_id := "u1", trace_id := some "t1",
       metric := "stress", level := "high", surface := "notification",
       intervention_key := "K_high", created_at := 100, scheduled_at := some 100,
       sent_at := some 200, status := "accepted" } : InterventionInstance) ∈
      apply_app_interaction c4SentTable c4TappedEvent :=
  ⟨by decide,
   c4_amended_status_machine.1 c4SentTable
     (.pushSent c4CreatedTable "i1" 200
       (.create [] "i1" "u1" (some "t1") "stress" "high" "notification" "K_high" 100 .empty)),
   c4_amended_status_machine.2 c4SentTable c4TappedEvent "accepted" "i1" (by decide) (by decide)
     { intervention_instance_id := "i1", user_id := "u1", trace_id := some "t1",
       metric := "stress", level := "high", surface := "notification",
       intervention_key := "K_high", created_at := 100, scheduled_at := some 100,
       sent_at := some 200, status := "sent" } (by decide) (by decide)⟩

theorem createAndPush_length (user_id : String) (est : StateEstimate)
    (iv : SelectedIntervention) (s : SelectorState) :
    (createAndPush user_id est iv s).instances.length = s.instances.length + 1 := by
  unfold createAndPush
  cases est.trace_id <;> cases s.device_token <;> cases hps : s.push_succeeds <;>
    simp [hps, update_intervention_instance_status, List.length_map, List.length_append]

/-- C1 (amended): the selector has no rate-limit step: whenever selection
succeeds and the onboarding gate does not apply, it appends an instance row
even when the user already has three or more instances created within the
last 30 minutes, so the count per 30-minute window is unbounded. -/
theorem c1_amended_no_rate_limit (user_id : String) (ts : Nat) (s : SelectorState)
    (est : StateEstimate) (iv : SelectedIntervention)
    (hest : s.latest_estimate = some est)
    (hsel : select_intervention est s.catalog s.surface_prefs = some iv)
    (hk : strStartsWith iv.intervention_key "getting_started_" = false)
    (_hcount : 3 ≤ recentInterventionCount s.instances user_id s.now) :
    (process_state_estimate user_id ts s).instances.length = s.instances.length + 1 := by
  unfold process_state_estimate
  rw [hest]
  simp only
  rw [hsel]
  simp only
  rw [hk]
  simp only [Bool.false_eq_true, if_false]
  exact createAndPush_length user_id est iv s

/-- Counterexample for C1 as stated: user u1 already has three instances
created within the last 30 minutes, yet processing a new state estimate
appends a fourth instead of exiting, leaving four instances inside one
30-minute window. -/
theorem c1_no_rate_limit_counterexample :
    3 ≤ recentInterventionCount c1State.instances "u1" c1State.now ∧
    (process_state_estimate "u1" 5 c1State).instances.length = c1State.instances.length + 1 ∧
    3 < recentInterventionCount (process_state_estimate "u1" 5 c1State).instances "u1" c1State.now := by
  refine ⟨by decide, by decide, by decide⟩

/-- Witness for C1 at a concrete input: the amended theorem applied to the
state with three recent instances. -/
theorem c1_amended_witness :
    c1State.latest_estimate = some exEstimateHigh ∧
    select_intervention exEstimateHigh c1State.catalog c1State.surface_prefs = some exSelectedHigh ∧
    strStartsWith exSelectedHigh.intervention_key "getting_started_" = false ∧
    3 ≤ recentInterventionCount c1State.instances "u1" c1State.now ∧
    (process_state_estimate "u1" 5 c1State).instances.length = c1State.instances.length + 1 :=
  ⟨by decide, by decide, by decide, by decide,
   c1_amended_no_rate_limit "u1" 5 c1State exEstimateHigh exSelectedHigh
     (by decide) (by decide) (by decide) (by decide)⟩

theorem get_interventions_for_user_aux (catalog : List CatalogRow)
    (rows : List InterventionInstance) :
    ∀ (acc : List ContextInterventionRow × Nat),
      (∀ x ∈ acc.1, x.trace_id.isSome = true) →
      ∀ r ∈ (rows.foldl
        (fun (acc : List ContextInterventionRow × Nat) row =>
          match get_catalog_intervention_by_key catalog row.intervention_key with
          | none => acc
          | some cat =>
            let supply := match row.trace_id with
              | some _ => acc.2
              | none => acc.2 + 1
            let trace_id := match row.trace_id with
              | some t => t
              | none => freshId acc.2
            (acc.1 ++
              [{ intervention_instance_id := row.intervention_instance_id
                 user_id := row.user_id
                 trace_id := some trace_id
                 metric := row.metric
                 level := row.level
                 surface := row.surface
                 intervention_key := row.intervention_key
                 title := cat.title
                 body := cat.body
                 created_at := some row.created_at
                 scheduled_at := row.scheduled_at
                 sent_at := row.sent_at
                 status := row.status }],
             supply)) acc).1,
        r.trace_id.isSome = true := by
  induction rows with
  | nil => intro acc hacc r hr; exact hacc r hr
  | cons row rest ih =>
    intro acc hacc r hr
    rw [List.foldl_cons] at hr
    cases hcat : get_catalog_intervention_by_key catalog row.intervention_key with
    | none =>
      rw [hcat] at hr
      exact ih acc hacc r hr
    | some cat =>
      rw [hcat] at hr
      refine ih _ ?_ r hr
      intro x hx
      rcases List.mem_append.mp hx with hx | hx
      · exact hacc x hx
      · rw [List.mem_singleton.mp hx]
        rfl

/-- C2 (amended): the selector listing endpoint get_interventions_for_user
replaces a missing stored trace id by a fresh generated one (logged as a
traceability defect), so each of its returned rows carries a non-null
trace_id; the context aggregator get_context, in contrast, returns the
stored trace_id unchanged, so a stored row without a trace id is returned
with a null trace_id. -/
theorem c2_amended_listing_trace_nonnull (instances : List InterventionInstance)
    (catalog : List CatalogRow) (user_id status : String) (idSupply : Nat)
    (r : ContextInterventionRow)
    (hr : r ∈ get_interventions_for_user instances catalog user_id status idSupply) :
    r.trace_id.isSome = true := by
  unfold get_interventions_for_user at hr
  exact get_interventions_for_user_aux catalog _ _ (by intro x hx; exact absurd hx (List.not_mem_nil x)) r hr

/-- Counterexample for C2 as stated: a stored instance row with a null
trace id is returned by get_context with its trace_id still null. -/
theorem c2_get_context_null_trace_counterexample :
    (get_context "u1" c2Store).interventions.map (·.trace_id) = [none] := by
  decide

/-- Witness for C2 at a concrete input: the listing endpoint invents a trace
id for the legacy null-trace row. -/
theorem c2_amended_witness :
    c2ListedRow ∈ get_interventions_for_user [c2LegacyInstance] exCatalogHigh "u1" "created" 7 ∧
    c2ListedRow.trace_id.isSome = true :=
  ⟨by decide,
   c2_amended_listing_trace_nonnull [c2LegacyInstance] exCatalogHigh "u1" "created" 7 c2ListedRow (by decide)⟩

/-- C3 evaluated at its failing input (a fresh user with the onboarding key
in the catalog): the first GET /context creates one instance but returns TWO
onboarding rows (the synthetic hardcoded card plus the stored instance), the
synthetic card carries the constant trace id getting-started-trace-id on
every call rather than a fresh one, the second call creates no second
instance but again returns two rows, and after flow_completed the stored
created instance is still returned. -/
theorem c3_onboarding_divergence :
    (get_context "u2" c3Store).interventions.length = 2 ∧
    (get_context "u2" c3Store).interventions.map (·.intervention_key) =
      ["getting_started_v1", "getting_started_v1"] ∧
    (get_context "u2" c3Store).interventions.head?.map (·.trace_id) =
      some (some "getting-started-trace-id") ∧
    (get_context "u2" c3Store).store.instances.length = 1 ∧
    (get_context "u2" (get_context "u2" c3Store).store).store.instances.length = 1 ∧
    (get_context "u2" (get_context "u2" c3Store).store).interventions.length = 2 ∧
    (get_context "u2" (get_context "u2" c3Store).store).interventions.head?.map (·.trace_id) =
      some (some "getting-started-trace-id") ∧
    (get_context "u2"
        { (get_context "u2" c3Store).store with
          interactions := (get_context "u2" c3Store).store.interactions ++ [c3CompletedEvent] }).interventions.map
      (·.intervention_key) = ["getting_started_v1"] := by
  refine ⟨by decide, by decide, by decide, by decide, by decide, by decide, by decide, by decide⟩

theorem latestEvent_go (l : List AppInteraction) :
    ∀ (b : AppInteraction), (∀ e ∈ l, b.timestamp ≤ e.timestamp) →
      List.Pairwise (fun a c => a.timestamp < c.timestamp) l →
      l.foldl
        (fun acc e =>
          match acc with
          | none => some e
          | some b => if b.timestamp ≤ e.timestamp then some e else some b)
        (some b) = some (l.getLastD b) := by
  induction l with
  | nil => intro b _ _; rfl
  | cons c cs ih =>
    intro b hb hpw
    rw [List.foldl_cons, List.getLastD_cons]
    have hbc : b.timestamp ≤ c.timestamp := hb c (List.mem_cons_self c cs)
    simp only [if_pos hbc]
    exact ih c (fun e he => le_of_lt ((List.pairwise_cons.mp hpw).1 e he))
      (List.pairwise_cons.mp hpw).2

theorem latestEvent_sorted (l : List AppInteraction)
    (h : List.Pairwise (fun a c => a.timestamp < c.timestamp) l) :
    latestEvent l = l.getLast? := by
  cases l with
  | nil => rfl
  | cons x xs =>
    unfold latestEvent
    rw [List.foldl_cons]
    simp only
    rw [latestEvent_go xs x (fun e he => le_of_lt ((List.pairwise_cons.mp h).1 e he))
      (List.pairwise_cons.mp h).2]
    rw [List.getLast?_cons, List.getLastD_eq_getLast?]

theorem maxfold_go (l : List AppInteraction) :
    ∀ (t : Nat), ∃ t', l.foldl
        (fun acc e =>
          match acc with
          | none => some e.timestamp
          | some t => some (max t e.timestamp))
        (some t) = some t' ∧ t ≤ t' ∧ (∀ r ∈ l, r.timestamp ≤ t') ∧
      (t' = t ∨ ∃ r ∈ l, r.timestamp = t') := by
  induction l with
  | nil => intro t; exact ⟨t, rfl, le_refl t, by simp, Or.inl rfl⟩
  | cons c cs ih =>
    intro t
    rw [List.foldl_cons]
    obtain ⟨t', h1, h2, h3, h4⟩ := ih (max t c.timestamp)
    refine ⟨t', h1, le_trans (le_max_left t c.timestamp) h2, ?_, ?_⟩
    · intro r hr
      rcases List.mem_cons.mp hr with rfl | hr
      · exact le_trans (le_max_right t r.timestamp) h2
      · exact h3 r hr
    · rcases h4 with h4 | ⟨r, hr, hrt⟩
      · rcases max_choice t c.timestamp with hm | hm
        · exact Or.inl (h4.trans hm)
        · exact Or.inr ⟨c, List.mem_cons_self c cs, (h4.trans hm).symm⟩
      · exact Or.inr ⟨r, List.mem_cons.mpr (Or.inr hr), hrt⟩

theorem savedResetTimestamp_none {events : List AppInteraction} {user_id : String}
    (h : savedResetTimestamp events user_id = none) :
    events.filter (isSavedReset user_id) = [] := by
  unfold savedResetTimestamp at h
  cases hf : events.filter (isSavedReset user_id) with
  | nil => rfl
  | cons c cs =>
    rw [hf, List.foldl_cons] at h
    obtain ⟨t', h1, _, _, _⟩ := maxfold_go cs c.timestamp
    rw [h1] at h
    exact absurd h (by simp)

theorem savedResetTimestamp_some {events : List AppInteraction} {user_id : String} {t : Nat}
    (h : savedResetTimestamp events user_id = some t) :
    (∀ r ∈ events.filter (isSavedReset user_id), r.timestamp ≤ t) ∧
    ∃ r ∈ events.filter (isSavedReset user_id), r.timestamp = t := by
  unfold savedResetTimestamp at h
  cases hf : events.filter (isSavedReset user_id) with
  | nil => rw [hf] at h; exact absurd h (by simp)
  | cons c cs =>
    rw [hf, List.foldl_cons] at h
    obtain ⟨t', h1, h2, h3, h4⟩ := maxfold_go cs c.timestamp
    rw [h1] at h
    have ht : t' = t := Option.some.inj h
    subst ht
    constructor
    · intro r hr
      rcases List.mem_cons.mp hr with rfl | hr
      · exact h2
      · exact h3 r hr
    · rcases h4 with h4 | ⟨r, hr, hrt⟩
      · exact ⟨c, List.mem_cons_self c cs, h4.symm⟩
      · exact ⟨r, List.mem_cons.mpr (Or.inr hr), hrt⟩

theorem savedEventKeys_mem {events : List AppInteraction} {user_id k : String} :
    k ∈ savedEventKeys events user_id ↔ events.filter (isSavedEventFor user_id k) ≠ [] := by
  unfold savedEventKeys
  rw [List.mem_dedup, List.mem_filterMap]
  constructor
  · intro ⟨e, he, hk⟩
    rw [List.mem_filter] at he
    intro hempty
    have : e ∈ events.filter (isSavedEventFor user_id k) := by
      rw [List.mem_filter]
      refine ⟨he.1, ?_⟩
      unfold isSavedEventFor
      simp only [Bool.and_eq_true] at he ⊢
      exact ⟨he.2, by rw [hk]; simp⟩
    rw [hempty] at this
    exact absurd this (List.not_mem_nil e)
  · intro hne
    cases hf : events.filter (isSavedEventFor user_id k) with
    | nil => exact absurd hf hne
    | cons e es =>
      have he : e ∈ events.filter (isSavedEventFor user_id k) := by
        rw [hf]; exact List.mem_cons_self e es
      rw [List.mem_filter] at he
      obtain ⟨hev, hcond⟩ := he
      unfold isSavedEventFor at hcond
      simp only [Bool.and_eq_true] at hcond
      refine ⟨e, ?_, ?_⟩
      · rw [List.mem_filter]
        exact ⟨hev, by simp only [Bool.and_eq_true]; exact hcond.1⟩
      · have := hcond.2
        rwa [beq_iff_eq] at this

/-- C9: the saved_interventions list contains exactly the keys whose latest
saved / unsaved event is a save strictly later than the most recent reset of
scope all or saved (stated for append-ordered logs with strictly increasing
timestamps), together with the literal scenario: saving K1 and K2 then
unsaving K1 yields K2 only; a reset of scope saved empties the list;
re-saving K1 afterwards yields K1 only. -/
theorem c9_saved_interventions :
    (∀ (events : List AppInteraction) (user_id k : String),
      List.Pairwise (fun a b => a.timestamp < b.timestamp) events →
      (k ∈ get_saved_interventions events user_id ↔ specSavedKey events user_id k)) ∧
    get_saved_interventions c9Events1 "u3" = ["K2"] ∧
    get_saved_interventions c9Events2 "u3" = [] ∧
    get_saved_interventions c9Events3 "u3" = ["K1"] := by
  refine ⟨?_, by decide, by decide, by decide⟩
  intro events user_id k hpw
  unfold get_saved_interventions specSavedKey latestSavedEventSpec
  have hkl : List.Pairwise (fun a b => a.timestamp < b.timestamp)
      (events.filter (isSavedEventFor user_id k)) :=
    List.Pairwise.sublist (List.filter_sublist events) hpw
  simp only [List.mem_filter]
  rw [latestEvent_sorted _ hkl]
  cases hlast : (events.filter (isSavedEventFor user_id k)).getLast? with
  | none =>
    constructor
    · intro ⟨_, hm⟩
      simp at hm
    · intro ⟨e, he, _⟩
      exact absurd he (by simp)
  | some e =>
    have hne : events.filter (isSavedEventFor user_id k) ≠ [] := by
      intro hempty
      rw [hempty] at hlast
      exact absurd hlast (by simp)
    constructor
    · intro ⟨_, hcond⟩
      simp only [Bool.and_eq_true, beq_iff_eq] at hcond
      obtain ⟨htype, hrc⟩ := hcond
      refine ⟨e, rfl, htype, ?_⟩
      intro r hr hrreset
      cases hrt : savedResetTimestamp events user_id with
      | none =>
        have hempty := savedResetTimestamp_none hrt
        have : r ∈ events.filter (isSavedReset user_id) := by
          rw [List.mem_filter]
          exact ⟨hr, hrreset⟩
        rw [hempty] at this
        exact absurd this (List.not_mem_nil r)
      | some rt =>
        rw [hrt] at hrc
        simp only [decide_eq_true_eq] at hrc
        have hle : r.timestamp ≤ rt := by
          refine (savedResetTimestamp_some hrt).1 r ?_
          rw [List.mem_filter]
          exact ⟨hr, hrreset⟩
        exact lt_of_le_of_lt hle hrc
    · intro ⟨e2, he2, htype, hall⟩
      have he2e : e2 = e := (Option.some.inj he2).symm
      subst he2e
      refine ⟨savedEventKeys_mem.mpr hne, ?_⟩
      simp only [Bool.and_eq_true, beq_iff_eq]
      refine ⟨htype, ?_⟩
      cases hrt : savedResetTimestamp events user_id with
      | none => rfl
      | some rt =>
        simp only [decide_eq_true_eq]
        obtain ⟨r, hrmem, hrts⟩ := (savedResetTimestamp_some hrt).2
        rw [List.mem_filter] at hrmem
        rw [← hrts]
        exact hall r hrmem.1 hrmem.2

/-- Witness for C9 at a concrete input: the scenario log is strictly
timestamp-ordered and K2 satisfies the specification-side saved condition. -/
theorem c9_saved_witness :
    List.Pairwise (fun a b => a.timestamp < b.timestamp) c9Events1 ∧
    specSavedKey c9Events1 "u3" "K2" :=
  ⟨by decide, (c9_saved_interventions.1 c9Events1 "u3" "K2" (by decide)).mp (by decide)⟩
